import Mathlib

/-!
Verification development for the SurgePricingEngine repository.

Prices and signal values are modelled as rationals (`ℚ`); JavaScript's
`Number(x.toFixed(2))` is modelled as rounding to the nearest cent
(`round2`), `null`/missing state values as `Option`, and the `||` /
`??` defaulting operators are translated explicitly where they occur.
Display-only text (the `reasoning` strings and log messages) is not
modelled; no claim depends on it.
-/

namespace SurgePricing

/-- The closed set of signal types (zod enum in `pricing-agent.step.ts`,
`simulate.step.ts` and `market-ticker.step.ts`). -/
inductive SignalType
  | demand_surge
  | competitor_price
  | stock_drop
  | stock_increase
deriving DecidableEq, Repr

/-- Pricing decision labels (`increase | decrease | hold`). -/
inductive Decision
  | increase
  | decrease
  | hold
deriving DecidableEq, Repr

/-- A market signal as carried on the `market.signal` topic.  The
`reason` and ISO `timestamp` fields are display-only and omitted. -/
structure MarketSignal where
  type : SignalType
  value : ℚ
  source : String
deriving DecidableEq, Repr

/- `PRICING_CONFIG` constants from `pricing-agent.step.ts`. -/

def basePrice : ℚ := 100
def minPrice : ℚ := 80
def maxPrice : ℚ := 500
def defaultPrice : ℚ := 100
def maxPriceChange : ℚ := 25 / 100
def competitorMargin : ℚ := 2 / 100
def minMargin : ℚ := 10 / 100
def lowStockThreshold : ℚ := 200
def highStockThreshold : ℚ := 800

/- `THRESHOLDS` and view constants from `market-ticker.step.ts`. -/

def demand_surge_pct : ℚ := 15 / 100
def competitor_price_pct : ℚ := 5 / 100
def stock_drop_pct : ℚ := 20 / 100
def VIEW_THRESHOLD : ℕ := 5
def TIME_WINDOW_MS : ℤ := 60000

/-- Model of JavaScript `Math.abs`. -/
def jsAbs (q : ℚ) : ℚ := if q < 0 then -q else q

/-- Model of JavaScript `Number(x.toFixed(2))`: round to the nearest
multiple of `1/100` (ties round up, matching `toFixed` on positive
values). -/
def round2 (q : ℚ) : ℚ := ((round (100 * q) : ℤ) : ℚ) / 100

/-- Step 2 of the PricingAgent handler: load `pricing/current_price`.
`(await state.get(...)) || defaultPrice` defaults both a missing value
and a falsy `0` to `defaultPrice`; a value outside
`[minPrice, maxPrice]` is self-healed to `basePrice`. -/
def loadCurrentPrice (stored : Option ℚ) : ℚ :=
  let p := match stored with
    | none => defaultPrice
    | some v => if v = 0 then defaultPrice else v
  if p < minPrice ∨ p > maxPrice then basePrice else p

/-- Result shape returned by `callLLMForPricing` (oracle or fallback).
`new_price = none` models a non-numeric / `NaN` price
(`typeof new_price !== 'number' || isNaN(new_price)`). -/
structure OracleResult where
  new_price : Option ℚ
  decision : Decision
deriving DecidableEq, Repr

/-- Final validated pricing outcome persisted by the handler. -/
structure PriceOutcome where
  new_price : ℚ
  decision : Decision
deriving DecidableEq, Repr

/-- First block of `validateAndSanitizePrice`: a non-numeric oracle
price is replaced by the current price. -/
def rawPrice (r : OracleResult) (currentPrice : ℚ) : ℚ :=
  match r.new_price with
  | none => currentPrice
  | some q => q

/-- The decision after the non-numeric check: forced to `hold` when the
oracle price was not a number. -/
def rawDecision (r : OracleResult) : Decision :=
  match r.new_price with
  | none => Decision.hold
  | some _ => r.decision

/-- The `basePrice` / `minPrice` / `maxPrice` clamp chain of
`validateAndSanitizePrice` (an `if` / `else if` cascade in the source). -/
def clampedPrice (r : OracleResult) (currentPrice : ℚ) : ℚ :=
  let q := rawPrice r currentPrice
  if q < basePrice then basePrice
  else if q < minPrice then minPrice
  else if q > maxPrice then maxPrice
  else q

/-- The maximum-change cap of `validateAndSanitizePrice`: if
`|new - current| / current > maxPriceChange`, move exactly
`maxPriceChange` of the current price in the same direction. -/
def cappedPrice (r : OracleResult) (currentPrice : ℚ) : ℚ :=
  let q := clampedPrice r currentPrice
  if jsAbs (q - currentPrice) / currentPrice > maxPriceChange then
    currentPrice + (if q > currentPrice then 1 else -1) * (currentPrice * maxPriceChange)
  else q

/-- Decision reconciliation in `validateAndSanitizePrice`, applied to
`actualChange = new_price - currentPrice` before the final cent
rounding; a `hold` within one cent of zero change is left as `hold`. -/
def finalDecision (r : OracleResult) (currentPrice : ℚ) : Decision :=
  let d := rawDecision r
  let actualChange := cappedPrice r currentPrice - currentPrice
  if d = Decision.increase ∧ actualChange ≤ 0 then
    (if actualChange < 0 then Decision.decrease else Decision.hold)
  else if d = Decision.decrease ∧ 0 ≤ actualChange then
    (if 0 < actualChange then Decision.increase else Decision.hold)
  else if d = Decision.hold ∧ jsAbs actualChange > 1 / 100 then
    (if 0 < actualChange then Decision.increase else Decision.decrease)
  else d

/-- `validateAndSanitizePrice` from `pricing-agent.step.ts`: non-numeric
check, clamp chain, max-change cap, decision reconciliation, and the
final `Number(new_price.toFixed(2))` rounding. -/
def validateAndSanitizePrice (r : OracleResult) (currentPrice : ℚ) : PriceOutcome :=
  { new_price := round2 (cappedPrice r currentPrice)
    decision := finalDecision r currentPrice }

/-- The new price the handler persists to `pricing/current_price`
(step 7), as a function of the previously stored price and the
oracle (or fallback) result. -/
def pricingAgentNewPrice (stored : Option ℚ) (r : OracleResult) : ℚ :=
  (validateAndSanitizePrice r (loadCurrentPrice stored)).new_price

/-- Stock classification of step 4 of the handler. -/
inductive StockStatus
  | low
  | normal
  | high
deriving DecidableEq, Repr

/-- The structured market context built in step 5 of the handler and
passed to the oracle and the fallback (`priceRange` is flattened to
`priceMin` / `priceMax`). -/
structure Ctx where
  currentPrice : ℚ
  basePrice : ℚ
  competitorPrice : Option ℚ
  ourStock : ℚ
  stockStatus : StockStatus
  demandLevel : ℚ
  signalType : SignalType
  signalValue : ℚ
  priceMin : ℚ
  priceMax : ℚ
  maxChange : ℚ
  minMargin : ℚ
  competitorMargin : ℚ
deriving DecidableEq, Repr

/-- Steps 4-5 of the handler: classify stock against the fixed
thresholds and assemble the context record from `PRICING_CONFIG`. -/
def buildContext (currentPrice : ℚ) (competitorPrice : Option ℚ)
    (ourStock demandLevel : ℚ) (sig : MarketSignal) : Ctx :=
  { currentPrice := currentPrice
    basePrice := basePrice
    competitorPrice := competitorPrice
    ourStock := ourStock
    stockStatus :=
      if ourStock < lowStockThreshold then StockStatus.low
      else if ourStock > highStockThreshold then StockStatus.high
      else StockStatus.normal
    demandLevel := demandLevel
    signalType := sig.type
    signalValue := sig.value
    priceMin := minPrice
    priceMax := maxPrice
    maxChange := maxPriceChange
    minMargin := minMargin
    competitorMargin := competitorMargin }

/-- `getFallbackPricing` from `pricing-agent.step.ts`: the deterministic
rule-based pricing used when the LLM is unreachable.  The branch
structure follows the source `switch` on the signal type; the final
clamp lines (`max(basePrice, ...)` then the `[minPrice, maxPrice]`
bound) and the `toFixed(2)` rounding are applied at the end. -/
def fallbackBranch (ctx : Ctx) (sigType : SignalType) (sigValue : ℚ) : ℚ × Decision :=
  match sigType with
    | SignalType.competitor_price =>
      let competitorPrice := sigValue
      let competitorDiff := competitorPrice - ctx.currentPrice
      if competitorPrice < ctx.basePrice then
        (ctx.basePrice,
         if ctx.basePrice > ctx.currentPrice then Decision.increase else Decision.hold)
      else if competitorDiff < -5 then
        (max (competitorPrice * (1 - ctx.competitorMargin)) ctx.basePrice, Decision.decrease)
      else if competitorDiff < 0 then
        let np := max (competitorPrice * (1 - ctx.competitorMargin)) ctx.basePrice
        (np, if np < ctx.currentPrice then Decision.decrease else Decision.hold)
      else if competitorDiff > 0 then
        if ctx.stockStatus = StockStatus.low then
          let inc := min (ctx.currentPrice * (8 / 100)) (ctx.currentPrice * ctx.maxChange)
          (min (ctx.currentPrice + inc) ctx.priceMax, Decision.increase)
        else (ctx.currentPrice, Decision.hold)
      else (ctx.currentPrice, Decision.hold)
    | SignalType.demand_surge =>
      let demandMultiplier := min (ctx.signalValue / 100) (3 / 2)
      let surgeIncrease :=
        min (ctx.currentPrice * (8 / 100) * demandMultiplier) (ctx.currentPrice * ctx.maxChange)
      let np :=
        if ctx.stockStatus = StockStatus.low then
          min (ctx.currentPrice + surgeIncrease * (3 / 2)) ctx.priceMax
        else min (ctx.currentPrice + surgeIncrease) ctx.priceMax
      (np, Decision.increase)
    | SignalType.stock_drop | SignalType.stock_increase =>
      let stockLevel := sigValue
      let stockFrac := stockLevel / 1000
      if stockFrac < 20 / 100 then
        let inc := min (ctx.currentPrice * (15 / 100)) (ctx.currentPrice * ctx.maxChange)
        (min (ctx.currentPrice + inc) ctx.priceMax, Decision.increase)
      else if stockFrac < 50 / 100 then
        let inc := min (ctx.currentPrice * (10 / 100)) (ctx.currentPrice * ctx.maxChange)
        (min (ctx.currentPrice + inc) ctx.priceMax, Decision.increase)
      else if stockFrac > 3 / 2 then
        match ctx.competitorPrice with
        | some cp =>
          if cp < ctx.currentPrice then
            let np := max (cp * (1 - ctx.competitorMargin)) ctx.basePrice
            (np, if np < ctx.currentPrice then Decision.decrease else Decision.hold)
          else (ctx.currentPrice, Decision.hold)
        | none => (ctx.currentPrice, Decision.hold)
      else (ctx.currentPrice, Decision.hold)

/-- `getFallbackPricing` assembled: run the branch for the signal type,
then the critical final clamp (`newPrice = max(basePrice, newPrice)`
followed by the `[minPrice, maxPrice]` bound) and the `toFixed(2)`
rounding on the returned price. -/
def getFallbackPricing (ctx : Ctx) (sigType : SignalType) (sigValue : ℚ) : PriceOutcome :=
  let branch := fallbackBranch ctx sigType sigValue
  let floored := max ctx.basePrice branch.1
  let bounded := max ctx.priceMin (min ctx.priceMax floored)
  { new_price := round2 bounded, decision := branch.2 }

/-! ## Market ticker (`market-ticker.step.ts`) -/

/-- The `signals` state namespace: per-type last-seen value used for
significance comparison. -/
def SignalMemory := SignalType → Option ℚ

/-- `state.set('signals', t, v)`. -/
def updateMem (mem : SignalMemory) (t : SignalType) (v : ℚ) : SignalMemory :=
  fun t' => if t' = t then some v else mem t'

/-- A signal stored in the `market_signals` namespace by `/simulate`,
after the ticker's plain-object coercion: `value` is the result of
`Number(raw.value) || 0`, `timestamp` the parsed epoch milliseconds of
the stored ISO timestamp, `source` the stored source string. -/
structure StoredSignal where
  value : ℚ
  timestamp : ℤ
  source : String
deriving DecidableEq, Repr

/-- A raw view event in the `views_events` namespace; `ts` is the
parsed epoch-millisecond timestamp (`none` models a missing or
unparseable `ts` string, for which `Date.parse` yields `NaN`). -/
structure RawViewEvent where
  itemId : String
  ts : Option ℤ
deriving DecidableEq, Repr

/-- JavaScript semantics of `Math.abs((v - lv) / lv) >= thr`: division
by zero yields `Infinity`, which clears every threshold when the delta
is nonzero, and `0 / 0` yields `NaN`, which clears none. -/
def pctAtLeast (v lv thr : ℚ) : Bool :=
  if lv = 0 then decide (v ≠ 0) else decide (jsAbs ((v - lv) / lv) ≥ thr)

/-- The ticker's significance computation for a stored signal (lines
147-197): no prior value is always significant; a fresh
(`age < 120000` ms) `manual_simulation` signal is always significant;
otherwise the per-type threshold rule applies, with `stock_drop`
requiring a decrease and `stock_increase` an increase. -/
def tickerSignificance (t : SignalType) (v : ℚ) (last : Option ℚ)
    (isNew : Bool) (source : String) : Bool :=
  match last with
  | none => true
  | some lv =>
    if isNew && source == "manual_simulation" then true
    else
      match t with
      | SignalType.demand_surge => pctAtLeast v lv demand_surge_pct
      | SignalType.competitor_price => pctAtLeast v lv competitor_price_pct
      | SignalType.stock_drop => decide (v - lv < 0) && pctAtLeast v lv stock_drop_pct
      | SignalType.stock_increase => decide (v - lv > 0) && pctAtLeast v lv stock_drop_pct

/-- One iteration of the ticker's stored-signal loop for type `t`: skip
when nothing is stored or the coerced value is not positive; otherwise
evaluate significance against the memory, emit on significance, and
update the memory to the new value in either case. -/
def evalStoredSignal (t : SignalType) (stored : Option StoredSignal)
    (mem : SignalMemory) (now : ℤ) : Option MarketSignal × SignalMemory :=
  match stored with
  | none => (none, mem)
  | some s =>
    if s.value ≤ 0 then (none, mem)
    else
      let isNew := decide (now - s.timestamp < 120000)
      if tickerSignificance t s.value (mem t) isNew s.source then
        (some { type := t, value := s.value, source := s.source }, updateMem mem t s.value)
      else (none, updateMem mem t s.value)

/-- The ticker's view-derived demand-surge path (lines 64-89): only
entered when the recent view count strictly exceeds `VIEW_THRESHOLD`;
the percentage change against the last value (`?? 0`, with an explicit
`lastViewCount === 0 ? 1` guard) is compared to the demand threshold,
and the memory is updated whether or not the signal is emitted. -/
def viewPath (viewCount : ℕ) (mem : SignalMemory) : Option MarketSignal × SignalMemory :=
  if viewCount > VIEW_THRESHOLD then
    let lastViewCount := (mem SignalType.demand_surge).getD 0
    let pctChange : ℚ :=
      if lastViewCount = 0 then 1
      else jsAbs (((viewCount : ℚ) - lastViewCount) / lastViewCount)
    if pctChange ≥ demand_surge_pct then
      (some { type := SignalType.demand_surge, value := (viewCount : ℚ), source := "cron" },
       updateMem mem SignalType.demand_surge (viewCount : ℚ))
    else (none, updateMem mem SignalType.demand_surge (viewCount : ℚ))
  else (none, mem)

/-- Lines 50-54: keep the events whose timestamp parses and lies within
the trailing window (`t >= now - TIME_WINDOW_MS`). -/
def recentViews (events : List RawViewEvent) (now : ℤ) : List RawViewEvent :=
  events.filter fun e =>
    match e.ts with
    | none => false
    | some t => decide (now - TIME_WINDOW_MS ≤ t)

/-- The loop order of the stored-signal pass. -/
def signalTypes : List SignalType :=
  [SignalType.demand_surge, SignalType.competitor_price,
   SignalType.stock_drop, SignalType.stock_increase]

/-- One MarketTicker tick: filter recent view events, run the view
path, then the stored-signal loop threading the signal memory, and
return (signals to emit, final memory, re-seeded view events). -/
def tickerTick (events : List RawViewEvent) (storedSignals : SignalType → Option StoredSignal)
    (mem : SignalMemory) (now : ℤ) :
    List MarketSignal × SignalMemory × List RawViewEvent :=
  let recent := recentViews events now
  let viewCount := recent.length
  let vStep := viewPath viewCount mem
  let loop := signalTypes.foldl
    (fun (acc : List MarketSignal × SignalMemory) t =>
      let step := evalStoredSignal t (storedSignals t) acc.2 now
      (acc.1 ++ step.1.toList, step.2))
    (vStep.1.toList, vStep.2)
  (loop.1, loop.2, recent)

/-! ## Event topology and the ForceTick debug endpoint -/

/-- Topics listed in `config.emits` of `MarketTicker`. -/
def marketTickerEmitTopics : List String := ["market.signal"]

/-- Topics listed in `config.emits` of `ForceTick` (`simulate.step.ts`,
`/debug/tick`). -/
def forceTickEmitTopics : List String := ["market.signal"]

/-- Topics listed in `config.emits` of `SimulateSignal` (`/simulate`
stores the signal in state only). -/
def simulateSignalEmitTopics : List String := []

/-- Topics listed in `config.subscribes` of `PricingAgent`. -/
def pricingAgentSubscribeTopics : List String := ["market.signal"]

/-- Request body of `/debug/tick` (zod: optional reason, optional
positive value). -/
structure ForceTickBody where
  reason : Option String
  value : Option ℚ
deriving DecidableEq, Repr

/-- The signal the ForceTick handler emits on `market.signal`: a
`demand_surge` with the requested value (default 50) and source
`debug_api`, built without consulting any state. -/
def forceTickSignal (b : ForceTickBody) : MarketSignal :=
  { type := SignalType.demand_surge
    value := b.value.getD 50
    source := "debug_api" }

/-- A signal delivered to the Pricing Decision Engine, indexed by the
signal memory in force when it was produced.  `MarketTicker` and
`ForceTick` are the only steps whose configs emit `market.signal`, the
sole topic `PricingAgent` subscribes to (`SimulateSignal` emits
nothing and only stores state). -/
inductive DeliveredToEngine : SignalMemory → MarketSignal → Prop
  | viaTicker (events : List RawViewEvent) (storedSignals : SignalType → Option StoredSignal)
      (mem : SignalMemory) (now : ℤ) (sig : MarketSignal) :
      sig ∈ (tickerTick events storedSignals mem now).1 → DeliveredToEngine mem sig
  | viaForceTick (mem : SignalMemory) (b : ForceTickBody) :
      DeliveredToEngine mem (forceTickSignal b)

/-! ## Persistent state touched by the PricingAgent and Reset handlers -/

/-- The state namespaces the handlers read and write: the per-type
signal memory (`signals`), `inventory/our_stock`,
`pricing/current_price` and `pricing/last_pricing_decision`, and the
stored pending signals (`market_signals`).  The timestamp and
display-only reason entries of the `pricing` namespace are omitted. -/
structure EngineState where
  signals : SignalMemory
  ourStock : Option ℚ
  currentPrice : Option ℚ
  lastDecision : Option Decision
  marketSignals : SignalType → Option StoredSignal

/-- The state effect of one completed PricingAgent run on an incoming
signal, with the oracle (or fallback) answer `r` passed in: step 2
loads and self-heals `current_price`; step 3 updates the auxiliary
entry matching the signal type (a stock signal also writes the
`stock_drop` memory slot and the inventory); steps 6-7 validate `r`
against the loaded price and persist the outcome, ending with
`state.set('signals', signal.type, signal.value)`. -/
def agentRun (sig : MarketSignal) (r : OracleResult) (st : EngineState) : EngineState :=
  let p0 := match st.currentPrice with
    | none => defaultPrice
    | some v => if v = 0 then defaultPrice else v
  let healed := p0 < minPrice ∨ p0 > maxPrice
  let p := if p0 < minPrice ∨ p0 > maxPrice then basePrice else p0
  let st1 := if healed then { st with currentPrice := some basePrice } else st
  let st2 := match sig.type with
    | SignalType.competitor_price =>
      { st1 with signals := updateMem st1.signals SignalType.competitor_price sig.value }
    | SignalType.stock_drop | SignalType.stock_increase =>
      { st1 with ourStock := some sig.value
                 signals := updateMem st1.signals SignalType.stock_drop sig.value }
    | SignalType.demand_surge =>
      { st1 with signals := updateMem st1.signals SignalType.demand_surge sig.value }
  let result := validateAndSanitizePrice r p
  { st2 with currentPrice := some result.new_price
             lastDecision := some result.decision
             signals := updateMem st2.signals sig.type sig.value }

/- `DEFAULT_VALUES` of `reset.step.ts`. -/

def resetCurrentPrice : ℚ := 100
def resetCompetitorPrice : ℚ := 100
def resetStockLevel : ℚ := 1000

/-- The state effect of the `/debug/reset` handler: set
`pricing/current_price` and decision to the defaults, set the
`competitor_price` and `stock_drop` signal-memory entries and the
inventory to the defaults, and clear the `market_signals` namespace.
No other signal-memory entry is touched. -/
def resetRun (st : EngineState) : EngineState :=
  { st with
      currentPrice := some resetCurrentPrice
      lastDecision := some Decision.hold
      signals := updateMem (updateMem st.signals SignalType.competitor_price resetCompetitorPrice)
        SignalType.stock_drop resetStockLevel
      ourStock := some resetStockLevel
      marketSignals := fun _ => none }

/-! ## Helper lemmas -/

theorem jsAbs_eq_abs (q : ℚ) : jsAbs q = |q| := by
  unfold jsAbs
  split_ifs with h
  · exact (abs_of_neg h).symm
  · exact (abs_of_nonneg (not_lt.mp h)).symm

theorem loadCurrentPrice_bounds (stored : Option ℚ) :
    minPrice ≤ loadCurrentPrice stored ∧ loadCurrentPrice stored ≤ maxPrice := by
  have hbase : minPrice ≤ basePrice ∧ basePrice ≤ maxPrice := by
    norm_num [minPrice, basePrice, maxPrice]
  have hdef : minPrice ≤ defaultPrice ∧ defaultPrice ≤ maxPrice := by
    norm_num [minPrice, defaultPrice, maxPrice]
  unfold loadCurrentPrice
  rcases stored with _ | v
  · dsimp only
    split_ifs with h
    · exact hbase
    · exact hdef
  · dsimp only
    by_cases hv : v = 0
    · rw [if_pos hv]
      split_ifs with h
      · exact hbase
      · exact hdef
    · rw [if_neg hv]
      split_ifs with h
      · exact hbase
      · push_neg at h
        exact h

theorem clampedPrice_bounds (r : OracleResult) (p : ℚ) :
    basePrice ≤ clampedPrice r p ∧ clampedPrice r p ≤ maxPrice := by
  unfold clampedPrice
  dsimp only
  split_ifs with h1 h2 h3
  · norm_num [basePrice, maxPrice]
  · exfalso
    rw [basePrice] at h1
    rw [minPrice] at h2
    linarith
  · norm_num [basePrice, maxPrice]
  · push_neg at h1 h3
    exact ⟨h1, h3⟩

theorem cappedPrice_bounds (r : OracleResult) (p : ℚ)
    (hp1 : minPrice ≤ p) (hp2 : p ≤ maxPrice) :
    basePrice ≤ cappedPrice r p ∧ cappedPrice r p ≤ maxPrice := by
  obtain ⟨hq1, hq2⟩ := clampedPrice_bounds r p
  rw [basePrice] at hq1 ⊢
  rw [maxPrice] at hq2 ⊢
  rw [minPrice] at hp1
  rw [maxPrice] at hp2
  have hp0 : (0 : ℚ) < p := by linarith
  unfold cappedPrice
  dsimp only
  rw [maxPriceChange]
  set q := clampedPrice r p with hq
  split_ifs with hcap hdir
  · -- capped upward: result is p * (1 + 25/100)
    constructor
    · linarith
    · -- from the cap condition and q > p: p + p/4 < q ≤ 500
      rw [jsAbs, if_neg (by linarith : ¬(q - p < 0))] at hcap
      rw [gt_iff_lt, lt_div_iff₀ hp0] at hcap
      linarith
  · -- capped downward: result is p * (1 - 25/100)
    push_neg at hdir
    constructor
    · -- q < p here, and q is at least 100, so p - p/4 > q ≥ 100
      rcases lt_or_eq_of_le hdir with hlt | heq
      · rw [jsAbs, if_pos (by linarith : q - p < 0)] at hcap
        rw [gt_iff_lt, lt_div_iff₀ hp0] at hcap
        linarith
      · exfalso
        rw [heq, jsAbs, if_neg (by linarith : ¬(p - p < 0))] at hcap
        rw [gt_iff_lt, lt_div_iff₀ hp0] at hcap
        linarith
    · linarith
  · exact ⟨hq1, hq2⟩

theorem cappedPrice_delta (r : OracleResult) (p : ℚ) (hp0 : 0 < p) :
    |cappedPrice r p - p| ≤ p * maxPriceChange := by
  unfold cappedPrice
  dsimp only
  rw [maxPriceChange]
  set q := clampedPrice r p with hq
  split_ifs with hcap hdir
  · rw [show p + 1 * (p * (25 / 100)) - p = p * (25 / 100) by ring,
      abs_of_nonneg (by positivity)]
  · rw [show p + -1 * (p * (25 / 100)) - p = -(p * (25 / 100)) by ring, abs_neg,
      abs_of_nonneg (by positivity)]
  · push_neg at hcap
    rw [jsAbs_eq_abs, div_le_iff₀ hp0] at hcap
    calc |q - p| ≤ 25 / 100 * p := hcap
      _ = p * (25 / 100) := by ring

theorem round2_bounds {x : ℚ} (h1 : basePrice ≤ x) (h2 : x ≤ maxPrice) :
    basePrice ≤ round2 x ∧ round2 x ≤ maxPrice := by
  rw [basePrice] at h1 ⊢
  rw [maxPrice] at h2 ⊢
  unfold round2
  constructor
  · have hfl : (10000 : ℤ) ≤ round (100 * x) := by
      rw [round_eq]
      calc (10000 : ℤ) = ⌊(10000 : ℚ) + 1 / 2⌋ := by norm_num
        _ ≤ ⌊100 * x + 1 / 2⌋ := Int.floor_mono (by linarith)
    have : (10000 : ℚ) ≤ ((round (100 * x) : ℤ) : ℚ) := by exact_mod_cast hfl
    linarith
  · have hfl : round (100 * x) ≤ (50000 : ℤ) := by
      rw [round_eq]
      calc ⌊100 * x + 1 / 2⌋ ≤ ⌊(50000 : ℚ) + 1 / 2⌋ := Int.floor_mono (by linarith)
        _ = 50000 := by norm_num
    have : ((round (100 * x) : ℤ) : ℚ) ≤ (50000 : ℚ) := by exact_mod_cast hfl
    linarith

theorem abs_round2_sub (x : ℚ) : |round2 x - x| ≤ 1 / 200 := by
  unfold round2
  have h := abs_sub_round (100 * x)
  rw [abs_sub_comm] at h
  have heq : ((round (100 * x) : ℤ) : ℚ) / 100 - x
      = (((round (100 * x) : ℤ) : ℚ) - 100 * x) / 100 := by ring
  rw [heq, abs_div, abs_of_pos (by norm_num : (0 : ℚ) < 100)]
  linarith

/-! ## Claim C1 -/

/-- C1: for every completed PricingAgent run, the persisted price lies
within `[basePrice, maxPrice]`, whatever price the oracle proposed and
whatever the stored current price was; and a fallback result built from
the handler context also lies within those bounds even before the
validation step.  Hence `basePrice ≤ currentPrice ≤ maxPrice` holds
after any successful update. -/
theorem persisted_price_respects_floor_and_ceiling :
    (∀ (stored : Option ℚ) (r : OracleResult),
        basePrice ≤ pricingAgentNewPrice stored r ∧
        pricingAgentNewPrice stored r ≤ maxPrice) ∧
    (∀ (currentPrice : ℚ) (competitorPrice : Option ℚ) (ourStock demandLevel : ℚ)
        (sig : MarketSignal),
        basePrice ≤ (getFallbackPricing
            (buildContext currentPrice competitorPrice ourStock demandLevel sig)
            sig.type sig.value).new_price ∧
        (getFallbackPricing
            (buildContext currentPrice competitorPrice ourStock demandLevel sig)
            sig.type sig.value).new_price ≤ maxPrice) := by
  constructor
  · intro stored r
    obtain ⟨h1, h2⟩ := loadCurrentPrice_bounds stored
    obtain ⟨h3, h4⟩ := cappedPrice_bounds r (loadCurrentPrice stored) h1 h2
    exact round2_bounds h3 h4
  · intro p comp stock demand sig
    unfold getFallbackPricing
    dsimp only
    set x := (fallbackBranch (buildContext p comp stock demand sig) sig.type sig.value).1 with hx
    have hb : (buildContext p comp stock demand sig).basePrice = basePrice := rfl
    have hmin : (buildContext p comp stock demand sig).priceMin = minPrice := rfl
    have hmax : (buildContext p comp stock demand sig).priceMax = maxPrice := rfl
    rw [hb, hmin, hmax]
    have h1 : basePrice ≤ max minPrice (min maxPrice (max basePrice x)) := by
      refine le_max_of_le_right (le_min (by norm_num [basePrice, maxPrice]) (le_max_left _ _))
    have h2 : max minPrice (min maxPrice (max basePrice x)) ≤ maxPrice := by
      exact max_le (by norm_num [minPrice, maxPrice]) (min_le_left _ _)
    exact round2_bounds h1 h2

/-! ## Claim C2 -/

/-- C2 counterexample: with stored price 100.03 and an oracle price of
500, the max-change cap yields 125.0375 and the final cent rounding
persists 125.04, so the relative change strictly exceeds the configured
`maxPriceChange = 0.25`. -/
theorem bounded_delta_violated_by_rounding :
    ¬ (|pricingAgentNewPrice (some (10003 / 100)) ⟨some 500, Decision.increase⟩
          - loadCurrentPrice (some (10003 / 100))|
        / loadCurrentPrice (some (10003 / 100)) ≤ maxPriceChange) := by
  norm_num [pricingAgentNewPrice, validateAndSanitizePrice, cappedPrice, clampedPrice,
    rawPrice, loadCurrentPrice, jsAbs, round2, round_eq, basePrice, minPrice, maxPrice,
    defaultPrice, maxPriceChange]
  rw [abs_of_nonneg (by norm_num : (0 : ℚ) ≤ 2501 / 100)]
  norm_num

/-- C2 amended: the bound `|newPrice - previousPrice| ≤ previousPrice *
maxPriceChange` holds exactly for the capped price before the final
cent rounding, and the persisted (rounded) price satisfies it up to
half a cent (`1/200`). -/
theorem bounded_delta_up_to_rounding :
    ∀ (stored : Option ℚ) (r : OracleResult),
      |cappedPrice r (loadCurrentPrice stored) - loadCurrentPrice stored|
        ≤ loadCurrentPrice stored * maxPriceChange ∧
      |pricingAgentNewPrice stored r - loadCurrentPrice stored|
        ≤ loadCurrentPrice stored * maxPriceChange + 1 / 200 := by
  intro stored r
  obtain ⟨h1, h2⟩ := loadCurrentPrice_bounds stored
  have hp0 : (0 : ℚ) < loadCurrentPrice stored := by
    rw [minPrice] at h1
    linarith
  have hd := cappedPrice_delta r (loadCurrentPrice stored) hp0
  refine ⟨hd, ?_⟩
  have hr := abs_round2_sub (cappedPrice r (loadCurrentPrice stored))
  have htri := abs_sub_le (pricingAgentNewPrice stored r)
    (cappedPrice r (loadCurrentPrice stored)) (loadCurrentPrice stored)
  have heq : pricingAgentNewPrice stored r
      = round2 (cappedPrice r (loadCurrentPrice stored)) := rfl
  rw [heq] at htri ⊢
  calc |round2 (cappedPrice r (loadCurrentPrice stored)) - loadCurrentPrice stored|
      ≤ |round2 (cappedPrice r (loadCurrentPrice stored))
            - cappedPrice r (loadCurrentPrice stored)|
        + |cappedPrice r (loadCurrentPrice stored) - loadCurrentPrice stored| := htri
    _ ≤ loadCurrentPrice stored * maxPriceChange + 1 / 200 := by linarith

/-! ## Claim C3 -/

/-- C3 counterexample: with current price 100 and an oracle answer of
(100.008, hold), the decision reconciliation keeps `hold` (the change
is inside the one-cent dead-band) but the final rounding persists
100.01, so a persisted `hold` accompanies `newPrice > previousPrice`,
contradicting `decision = hold ⟺ newPrice = previousPrice` and
`decision = increase ⟺ newPrice > previousPrice`. -/
theorem decision_sign_violated_by_subcent_change :
    (validateAndSanitizePrice ⟨some (100 + 1 / 125), Decision.hold⟩
        (loadCurrentPrice (some 100))).decision = Decision.hold ∧
    (validateAndSanitizePrice ⟨some (100 + 1 / 125), Decision.hold⟩
        (loadCurrentPrice (some 100))).new_price > loadCurrentPrice (some 100) := by
  constructor
  · norm_num [validateAndSanitizePrice, finalDecision, rawDecision, cappedPrice,
      clampedPrice, rawPrice, loadCurrentPrice, jsAbs, basePrice, minPrice, maxPrice,
      defaultPrice, maxPriceChange]
    decide
  · norm_num [validateAndSanitizePrice, cappedPrice, clampedPrice, rawPrice,
      loadCurrentPrice, jsAbs, round2, round_eq, basePrice, minPrice, maxPrice,
      defaultPrice, maxPriceChange]

/-- Consistency of a decision label with the pre-rounding price delta:
`increase` means a strictly positive delta, `decrease` a strictly
negative one, and `hold` a delta within the one-cent dead-band used by
the reconciliation code. -/
def decisionDeltaConsistent (d : Decision) (delta : ℚ) : Prop :=
  match d with
  | Decision.increase => 0 < delta
  | Decision.decrease => delta < 0
  | Decision.hold => |delta| ≤ 1 / 100

/-- C3 amended: the persisted decision label matches the sign of the
price delta computed before the final cent rounding: `increase` implies
the capped price strictly exceeds the previous price, `decrease`
implies it is strictly below, and `hold` implies the pre-rounding
change is at most one cent in magnitude (the rounded persisted price
may then differ from the previous price by one cent). -/
theorem decision_matches_prerounding_delta :
    ∀ (stored : Option ℚ) (r : OracleResult),
      decisionDeltaConsistent (finalDecision r (loadCurrentPrice stored))
        (cappedPrice r (loadCurrentPrice stored) - loadCurrentPrice stored) := by
  intro stored r
  unfold finalDecision
  dsimp only
  split_ifs with h1 h2 h3 h4 h5 h6 <;> simp only [decisionDeltaConsistent]
  · exact h2
  · rw [le_antisymm h1.2 (not_lt.mp h2)]
    norm_num
  · exact h4
  · rw [le_antisymm (not_lt.mp h4) h3.2]
    norm_num
  · exact h6
  · have habs := h5.2
    rw [gt_iff_lt, jsAbs_eq_abs, abs_of_nonpos (not_lt.mp h6)] at habs
    linarith
  · rcases hd : rawDecision r with _ | _ | _ <;> rw [hd] at h1 h3 h5 <;>
      simp only [decisionDeltaConsistent]
    · exact not_le.mp fun hle => h1 ⟨rfl, hle⟩
    · exact not_le.mp fun hle => h3 ⟨rfl, hle⟩
    · have : ¬(jsAbs (cappedPrice r (loadCurrentPrice stored) - loadCurrentPrice stored)
          > 1 / 100) := fun hgt => h5 ⟨rfl, hgt⟩
      rw [gt_iff_lt, jsAbs_eq_abs] at this
      exact not_lt.mp this
/-! ## Claim C4 -/

/-- C4 amended: signals travelling the MarketTicker path really do pass
the Significance Evaluator — the stored-signal loop emits a signal only
when `tickerSignificance` judged it significant, and the view path
emits only past the strict view-count gate. -/
theorem ticker_emits_only_evaluator_approved :
    (∀ (t : SignalType) (s : StoredSignal) (mem : SignalMemory) (now : ℤ)
        (sig : MarketSignal),
        (evalStoredSignal t (some s) mem now).1 = some sig →
        tickerSignificance t s.value (mem t)
          (decide (now - s.timestamp < 120000)) s.source = true) ∧
    (∀ (n : ℕ) (mem : SignalMemory) (sig : MarketSignal),
        (viewPath n mem).1 = some sig → VIEW_THRESHOLD < n) := by
  constructor
  · intro t s mem now sig h
    unfold evalStoredSignal at h
    dsimp only at h
    split_ifs at h with hv hsig
    · exact hsig
  · intro n mem sig h
    unfold viewPath at h
    dsimp only at h
    split_ifs at h with hn hpct
    · exact hn
    · exact hn

/-- Witness for the C4 amended theorem at a concrete ticker emission. -/
theorem ticker_emits_only_evaluator_approved_witness :
    tickerSignificance SignalType.competitor_price 200 ((fun _ => none) SignalType.competitor_price)
      (decide ((0 : ℤ) - 0 < 120000)) "cron" = true :=
  ticker_emits_only_evaluator_approved.1 SignalType.competitor_price
    ⟨200, 0, "cron"⟩ (fun _ => none) 0
    ⟨SignalType.competitor_price, 200, "cron"⟩
    (by norm_num [evalStoredSignal, tickerSignificance, updateMem])

/-- The signal memory in which `demand_surge` was last seen at 50. -/
def memDemand50 : SignalMemory :=
  fun t => if t = SignalType.demand_surge then some 50 else none

/-- C4 counterexample: the ForceTick debug endpoint emits its default
`demand_surge` signal (value 50, source `debug_api`) straight onto
`market.signal` — the topic the PricingAgent subscribes to — while the
Significance Evaluator, run on that very signal against a memory whose
last `demand_surge` value is already 50, judges it not significant
(whether or not the signal counts as fresh).  So a signal that skipped
(and would even have failed) the significance check reaches the
Decision Engine. -/
theorem forcetick_reaches_engine_without_significance :
    DeliveredToEngine memDemand50 (forceTickSignal ⟨none, none⟩) ∧
    (forceTickSignal ⟨none, none⟩).type = SignalType.demand_surge ∧
    (forceTickSignal ⟨none, none⟩).value = 50 ∧
    (forceTickSignal ⟨none, none⟩).source = "debug_api" ∧
    tickerSignificance SignalType.demand_surge (forceTickSignal ⟨none, none⟩).value
      (memDemand50 SignalType.demand_surge) true "debug_api" = false ∧
    tickerSignificance SignalType.demand_surge (forceTickSignal ⟨none, none⟩).value
      (memDemand50 SignalType.demand_surge) false "debug_api" = false ∧
    "market.signal" ∈ forceTickEmitTopics ∧
    "market.signal" ∈ pricingAgentSubscribeTopics := by
  refine ⟨DeliveredToEngine.viaForceTick _ _, rfl, rfl, rfl, ?_, ?_, ?_, ?_⟩
  · norm_num [tickerSignificance, pctAtLeast, jsAbs, demand_surge_pct, memDemand50,
      forceTickSignal]
    decide
  · norm_num [tickerSignificance, pctAtLeast, jsAbs, demand_surge_pct, memDemand50,
      forceTickSignal]
  · simp [forceTickEmitTopics]
  · simp [pricingAgentSubscribeTopics]

/-! ## Claim C5 -/

/-- C5: when the signal memory holds no prior value for a type, the
stored-signal evaluation judges any positive-valued signal of that type
significant and pushes it onto the emit list (the bootstrap case). -/
theorem bootstrap_first_signal_significant :
    ∀ (t : SignalType) (s : StoredSignal) (mem : SignalMemory) (now : ℤ),
      mem t = none → 0 < s.value →
      (evalStoredSignal t (some s) mem now).1
        = some { type := t, value := s.value, source := s.source } := by
  intro t s mem now hmem hv
  unfold evalStoredSignal
  dsimp only
  rw [if_neg (not_le.mpr hv), if_pos]
  unfold tickerSignificance
  rw [hmem]

/-- Witness for C5 at a concrete first-time signal. -/
theorem bootstrap_first_signal_significant_witness :
    (evalStoredSignal SignalType.stock_drop (some ⟨150, 0, "manual_simulation"⟩)
        (fun _ => none) 0).1
      = some { type := SignalType.stock_drop, value := 150, source := "manual_simulation" } :=
  bootstrap_first_signal_significant SignalType.stock_drop ⟨150, 0, "manual_simulation"⟩
    (fun _ => none) 0 rfl (by norm_num)

/-! ## Claim C6 -/

/-- C6 counterexample: the signal memory already holds 100 for
`competitor_price`, yet a stored signal with the same value 100 is
judged significant and emitted again, because it is a fresh
`manual_simulation` signal (age 0 < 120000 ms) and the ticker's manual
override fires before the plateau comparison.  The claim's "regardless
of the signal's source or how recently it was submitted" is therefore
false. -/
theorem plateau_violated_by_fresh_manual_signal :
    (evalStoredSignal SignalType.competitor_price (some ⟨100, 0, "manual_simulation"⟩)
        (fun t => if t = SignalType.competitor_price then some 100 else none) 0).1
      = some { type := SignalType.competitor_price, value := 100,
               source := "manual_simulation" } := by
  norm_num [evalStoredSignal, tickerSignificance, pctAtLeast, updateMem, jsAbs,
    competitor_price_pct]

/-- C6 amended: repeating the value already held in memory is never
judged significant unless the fresh-manual override applies, i.e. for
any signal whose source is not `manual_simulation` or whose stored
timestamp is at least 120000 ms old. -/
theorem plateau_suppressed_without_manual_override :
    ∀ (t : SignalType) (v : ℚ) (s : StoredSignal) (mem : SignalMemory) (now : ℤ),
      mem t = some v → s.value = v →
      (s.source ≠ "manual_simulation" ∨ 120000 ≤ now - s.timestamp) →
      (evalStoredSignal t (some s) mem now).1 = none := by
  intro t v s mem now hmem hval hover
  unfold evalStoredSignal
  dsimp only
  by_cases hv : s.value ≤ 0
  · rw [if_pos hv]
  · rw [if_neg hv]
    push_neg at hv
    have hover' : (decide (now - s.timestamp < 120000) && s.source == "manual_simulation")
        = false := by
      rcases hover with hsrc | hage
      · have : (s.source == "manual_simulation") = false := by
          simp [hsrc]
        simp [this]
      · have : (decide (now - s.timestamp < 120000)) = false := by
          simp [not_lt.mpr hage]  
        simp [this]
    have hpct : pctAtLeast s.value v (15 / 100) = false ∧
        pctAtLeast s.value v (5 / 100) = false ∧
        pctAtLeast s.value v (20 / 100) = false := by
      have hv0 : v ≠ 0 := by
        rw [hval] at hv
        exact ne_of_gt hv
      unfold pctAtLeast
      rw [if_neg hv0, if_neg hv0, if_neg hv0, hval, sub_self, zero_div, jsAbs]
      norm_num
    have hsig : tickerSignificance t s.value (mem t)
        (decide (now - s.timestamp < 120000)) s.source = false := by
      unfold tickerSignificance
      rw [hmem]
      dsimp only
      rw [hover']
      rcases t with _ | _ | _ | _
      · rw [demand_surge_pct]
        exact hpct.1
      · rw [competitor_price_pct]
        exact hpct.2.1
      · rw [stock_drop_pct, hpct.2.2]
        simp
      · rw [stock_drop_pct, hpct.2.2]
        simp
    rw [if_neg]
    rw [hsig]
    exact Bool.false_ne_true  

/-- Witness for the C6 amended theorem: a repeated cron-sourced value
is not re-emitted. -/
theorem plateau_suppressed_without_manual_override_witness :
    (evalStoredSignal SignalType.demand_surge (some ⟨80, 0, "cron"⟩)
        (fun _ => some 80) 0).1 = none :=
  plateau_suppressed_without_manual_override SignalType.demand_surge 80
    ⟨80, 0, "cron"⟩ (fun _ => some 80) 0 rfl rfl
    (Or.inl (by simp))

/-! ## Claim C7 -/

/-- C7 counterexample: with a recorded last-seen value of 0 for
`stock_drop`, an incoming positive signal (value 10, source `cron`) is
judged NOT significant — the `delta < 0` decrease test fails for any
positive value — so a zero last value is not "always significant for
every type including stock_drop" as the claim states. -/
theorem zero_memory_stock_drop_not_significant :
    (evalStoredSignal SignalType.stock_drop (some ⟨10, 0, "cron"⟩)
        (fun t => if t = SignalType.stock_drop then some 0 else none) 200000).1
      = none := by
  norm_num [evalStoredSignal, tickerSignificance, pctAtLeast, updateMem, jsAbs,
    stock_drop_pct]

/-- C7 amended: when the recorded last value is 0, the JS division
yields Infinity, which clears every percentage threshold, so
`demand_surge`, `competitor_price` and `stock_increase` signals are
judged significant; `stock_drop` alone is not (absent the fresh-manual
override), because its decrease test `delta < 0` fails for every
positive incoming value. -/
theorem zero_memory_significance :
    ∀ (s : StoredSignal) (mem : SignalMemory) (now : ℤ), 0 < s.value →
      (mem SignalType.demand_surge = some 0 →
        (evalStoredSignal SignalType.demand_surge (some s) mem now).1
          = some { type := SignalType.demand_surge, value := s.value, source := s.source }) ∧
      (mem SignalType.competitor_price = some 0 →
        (evalStoredSignal SignalType.competitor_price (some s) mem now).1
          = some { type := SignalType.competitor_price, value := s.value,
                   source := s.source }) ∧
      (mem SignalType.stock_increase = some 0 →
        (evalStoredSignal SignalType.stock_increase (some s) mem now).1
          = some { type := SignalType.stock_increase, value := s.value,
                   source := s.source }) ∧
      (mem SignalType.stock_drop = some 0 → s.source ≠ "manual_simulation" →
        (evalStoredSignal SignalType.stock_drop (some s) mem now).1 = none) := by
  intro s mem now hv
  have hvne : s.value ≠ 0 := ne_of_gt hv
  have hvle : ¬(s.value ≤ 0) := not_le.mpr hv
  have hpct0 : ∀ thr : ℚ, pctAtLeast s.value 0 thr = true := by
    intro thr
    unfold pctAtLeast
    rw [if_pos rfl]
    simp [hvne]
  refine ⟨?_, ?_, ?_, ?_⟩
  · intro hmem
    unfold evalStoredSignal
    dsimp only
    rw [if_neg hvle, if_pos]
    unfold tickerSignificance
    rw [hmem]
    dsimp only
    split_ifs with hover
    · rfl
    · exact hpct0 demand_surge_pct
  · intro hmem
    unfold evalStoredSignal
    dsimp only
    rw [if_neg hvle, if_pos]
    unfold tickerSignificance
    rw [hmem]
    dsimp only
    split_ifs with hover
    · rfl
    · exact hpct0 competitor_price_pct
  · intro hmem
    unfold evalStoredSignal
    dsimp only
    rw [if_neg hvle, if_pos]
    unfold tickerSignificance
    rw [hmem]
    dsimp only
    split_ifs with hover
    · rfl
    · rw [hpct0 stock_drop_pct]
      simp [sub_zero, hv]
  · intro hmem hsrc
    unfold evalStoredSignal
    dsimp only
    rw [if_neg hvle, if_neg]
    unfold tickerSignificance
    rw [hmem]
    dsimp only
    have : (s.source == "manual_simulation") = false := by
      simp [hsrc]
    rw [Bool.and_comm, this, Bool.false_and]
    simp [sub_zero, not_lt.mpr (le_of_lt hv)]

/-- Witness for the C7 amended theorem at concrete zero-memory
signals. -/
theorem zero_memory_significance_witness :
    (evalStoredSignal SignalType.demand_surge (some ⟨10, 0, "cron"⟩)
        (fun _ => some 0) 200000).1
      = some { type := SignalType.demand_surge, value := 10, source := "cron" } ∧
    (evalStoredSignal SignalType.stock_drop (some ⟨10, 0, "cron"⟩)
        (fun _ => some 0) 200000).1 = none := by
  have h := zero_memory_significance ⟨10, 0, "cron"⟩ (fun _ => some 0) 200000 (by norm_num)
  exact ⟨h.1 rfl, h.2.2.2 rfl (by simp)⟩

/-! ## Claim C8 -/

/-- An engine state used in the C8 counterexample: signal memory holds
100 for `stock_drop` and nothing else; price and stock at defaults. -/
def stC8 : EngineState :=
  { signals := fun t => if t = SignalType.stock_drop then some 100 else none
    ourStock := some 1000
    currentPrice := some 100
    lastDecision := none
    marketSignals := fun _ => none }

/-- C8 counterexample: handling a `stock_increase` signal of value 900
overwrites the `stock_drop` signal-memory entry (step 3 of the handler
stores every stock signal under `stock_drop` "for consistency"), so the
`stock_drop` entry changes from 100 to 900 — the types are not
independent as the claim states. -/
theorem stock_increase_overwrites_stock_drop_memory :
    stC8.signals SignalType.stock_drop = some 100 ∧
    (agentRun ⟨SignalType.stock_increase, 900, "cron"⟩ ⟨some 100, Decision.hold⟩
        stC8).signals SignalType.stock_drop = some 900 := by
  constructor
  · rfl
  · norm_num [agentRun, stC8, updateMem, basePrice, minPrice, maxPrice, defaultPrice]

/-- C8 amended: a completed PricingAgent run sets the signal-memory
entry of the incoming signal's own type to the signal value, and leaves
every other type's entry unchanged — except that a `stock_drop` or
`stock_increase` signal additionally overwrites the `stock_drop` entry,
which the two stock types share. -/
theorem agent_signal_memory_frame :
    ∀ (sig : MarketSignal) (r : OracleResult) (st : EngineState),
      ((agentRun sig r st).signals sig.type = some sig.value) ∧
      (∀ t : SignalType, t ≠ sig.type →
        ((sig.type = SignalType.stock_drop ∨ sig.type = SignalType.stock_increase) →
          t ≠ SignalType.stock_drop) →
        (agentRun sig r st).signals t = st.signals t) := by
  intro sig r st
  have hsig1 : ∀ (b : Bool) (cp : Option ℚ),
      (if b = true then { st with currentPrice := cp } else st).signals = st.signals := by
    intro b cp
    split_ifs <;> rfl
  constructor
  · unfold agentRun
    dsimp only
    rcases sig.type with _ | _ | _ | _ <;> simp [updateMem]
  · intro t ht hstock
    unfold agentRun
    dsimp only
    rcases htype : sig.type with _ | _ | _ | _ <;>
      rw [htype] at ht hstock <;>
      simp only [updateMem] <;>
      split_ifs with hh hh2 <;>
      first
        | rfl
        | (exfalso
           first
             | exact ht hh
             | exact (hstock (Or.inl rfl)) hh
             | exact (hstock (Or.inr rfl)) hh
             | exact ht hh2
             | exact (hstock (Or.inl rfl)) hh2
             | exact (hstock (Or.inr rfl)) hh2)

/-- Witness for the C8 amended theorem: a `demand_surge` run updates
its own entry and leaves the `competitor_price` entry alone. -/
theorem agent_signal_memory_frame_witness :
    (agentRun ⟨SignalType.demand_surge, 7, "cron"⟩ ⟨some 100, Decision.hold⟩
        stC8).signals SignalType.demand_surge = some 7 ∧
    (agentRun ⟨SignalType.demand_surge, 7, "cron"⟩ ⟨some 100, Decision.hold⟩
        stC8).signals SignalType.competitor_price
      = stC8.signals SignalType.competitor_price := by
  have h := agent_signal_memory_frame ⟨SignalType.demand_surge, 7, "cron"⟩
    ⟨some 100, Decision.hold⟩ stC8
  exact ⟨h.1, h.2 SignalType.competitor_price (by simp) (by simp)⟩

/-! ## Claim C9 -/

/-- An engine state used in the C9 counterexample: the demand memory
already holds 42. -/
def stC9 : EngineState :=
  { signals := fun t => if t = SignalType.demand_surge then some 42 else none
    ourStock := some 500
    currentPrice := some 130
    lastDecision := some Decision.increase
    marketSignals := fun _ => none }

/-- C9 counterexample: after a reset the `demand_surge` memory still
holds its prior value 42 and the `competitor_price` memory holds 100
(a value, not "no prior value"), and a subsequent `demand_surge` signal
with value 42 is evaluated against that prior value and suppressed —
while the bootstrap rule would have emitted it had the memory been
cleared.  So reset does not clear all transient signal memory. -/
theorem reset_keeps_prior_signal_memory :
    (resetRun stC9).signals SignalType.demand_surge = some 42 ∧
    (resetRun stC9).signals SignalType.competitor_price = some 100 ∧
    (evalStoredSignal SignalType.demand_surge (some ⟨42, 0, "cron"⟩)
        (resetRun stC9).signals 200000).1 = none := by
  refine ⟨rfl, rfl, ?_⟩
  have hmem : (resetRun stC9).signals SignalType.demand_surge = some 42 := rfl
  unfold evalStoredSignal
  dsimp only
  rw [if_neg (by norm_num), if_neg]
  unfold tickerSignificance
  rw [hmem]
  norm_num [pctAtLeast, jsAbs, demand_surge_pct]

/-- C9 amended: the reset sets the current price to 100, the
competitor-price signal memory to 100, the stock level (inventory and
the `stock_drop` memory entry) to 1000, records a `hold` decision, and
clears the stored pending market signals — but it does not clear the
per-type significance memory: the `demand_surge` and `stock_increase`
entries keep their prior values, and the `competitor_price` and
`stock_drop` entries hold the defaults, so subsequent signals are
evaluated against these values rather than against no prior value. -/
theorem reset_state_effects :
    ∀ st : EngineState,
      (resetRun st).currentPrice = some resetCurrentPrice ∧
      (resetRun st).lastDecision = some Decision.hold ∧
      (resetRun st).signals SignalType.competitor_price = some resetCompetitorPrice ∧
      (resetRun st).signals SignalType.stock_drop = some resetStockLevel ∧
      (resetRun st).ourStock = some resetStockLevel ∧
      (∀ t : SignalType, (resetRun st).marketSignals t = none) ∧
      (resetRun st).signals SignalType.demand_surge = st.signals SignalType.demand_surge ∧
      (resetRun st).signals SignalType.stock_increase
        = st.signals SignalType.stock_increase := by
  intro st
  refine ⟨rfl, rfl, rfl, rfl, rfl, fun t => rfl, ?_, ?_⟩ <;> simp [resetRun, updateMem]

/-! ## Claim C10 -/

/-- C10: the view-derived demand-surge path is gated on the recent view
count strictly exceeding `VIEW_THRESHOLD = 5`; with five or fewer
recent views it emits nothing and leaves the signal memory untouched,
whatever the stored last value was — and a whole ticker tick with no
stored pending signals then emits nothing and keeps the memory
unchanged. -/
theorem view_gate_strictly_above_threshold :
    (∀ (mem : SignalMemory) (n : ℕ), n ≤ VIEW_THRESHOLD → viewPath n mem = (none, mem)) ∧
    (∀ (events : List RawViewEvent) (mem : SignalMemory) (now : ℤ),
      (recentViews events now).length ≤ VIEW_THRESHOLD →
      (tickerTick events (fun _ => none) mem now).1 = [] ∧
      (tickerTick events (fun _ => none) mem now).2.1 = mem) := by
  have hview : ∀ (mem : SignalMemory) (n : ℕ), n ≤ VIEW_THRESHOLD →
      viewPath n mem = (none, mem) := by
    intro mem n hn
    unfold viewPath
    rw [if_neg (not_lt.mpr hn)]
  refine ⟨hview, ?_⟩
  intro events mem now hlen
  unfold tickerTick
  dsimp only
  rw [hview mem _ hlen]
  simp [signalTypes, evalStoredSignal]

/-- Witness for C10 at the boundary count of exactly five views. -/
theorem view_gate_strictly_above_threshold_witness :
    viewPath 5 (fun _ => some 1) = (none, fun _ => some 1) ∧
    (tickerTick [] (fun _ => none) (fun _ => some 1) 0).1 = [] := by
  constructor
  · exact view_gate_strictly_above_threshold.1 (fun _ => some 1) 5 (by norm_num [VIEW_THRESHOLD])
  · exact (view_gate_strictly_above_threshold.2 [] (fun _ => some 1) 0
      (by norm_num [recentViews, VIEW_THRESHOLD])).1

end SurgePricing
